import Mathlib

/-!
Verification of the ptrace binding layer (`src/sys/ptrace/linux.rs`).

The layer is a thin veneer over the kernel primitive
`ptrace(request, pid, addr, data)`.  We embed it shallowly:

* machine words (`c_long`, pointers, `pid_t`) are modelled as `Int`;
  unsigned kernel fields (`u8`, `u32`, `u64`) as `Nat`;
* the single foreign call is modelled by a `KernelReply` parameter: the
  return word of the call together with the errno value the kernel sets
  (or `Option.none` when the kernel leaves the thread errno untouched);
* the thread-local errno is threaded explicitly, `0` standing for the
  crate's `Errno::UnknownErrno` decode of a zero errno;
* every operation additionally records its observable effects (clearing
  the errno state, and the one underlying ptrace call with the request
  code and the exact `addr`/`data` words that were marshalled), so that
  argument-marshalling and clear-before-call properties are statable.

Buffer addresses (`data.as_mut_ptr()`, `&mask`, `&regs`, ...) are stack
addresses invisible to the Rust source as values; they enter the model
as explicit parameters, and the value the kernel writes through such a
pointer on success enters as a `kWrites` parameter.
-/

namespace ptrace

/-- Ptrace request codes, as enumerated by the crate's `Request` enum
(all variants available on `linux`/`gnu`/`x86_64`, the configuration the
claims quote). -/
inductive Request where
  | PTRACE_TRACEME
  | PTRACE_PEEKTEXT
  | PTRACE_PEEKDATA
  | PTRACE_PEEKUSER
  | PTRACE_POKETEXT
  | PTRACE_POKEDATA
  | PTRACE_POKEUSER
  | PTRACE_CONT
  | PTRACE_KILL
  | PTRACE_SINGLESTEP
  | PTRACE_GETREGS
  | PTRACE_SETREGS
  | PTRACE_GETFPREGS
  | PTRACE_SETFPREGS
  | PTRACE_ATTACH
  | PTRACE_DETACH
  | PTRACE_GETFPXREGS
  | PTRACE_SETFPXREGS
  | PTRACE_SYSCALL
  | PTRACE_SETOPTIONS
  | PTRACE_GETEVENTMSG
  | PTRACE_GETSIGINFO
  | PTRACE_SETSIGINFO
  | PTRACE_GETREGSET
  | PTRACE_SETREGSET
  | PTRACE_SEIZE
  | PTRACE_INTERRUPT
  | PTRACE_LISTEN
  | PTRACE_PEEKSIGINFO
  | PTRACE_SYSEMU
  | PTRACE_SYSEMU_SINGLESTEP
  | PTRACE_GET_SYSCALL_INFO
  | PTRACE_GETSIGMASK
  | PTRACE_SETSIGMASK
deriving DecidableEq, Repr

/-- Stop-reason codes of the crate's `Event` enum. -/
inductive Event where
  | PTRACE_EVENT_FORK
  | PTRACE_EVENT_VFORK
  | PTRACE_EVENT_CLONE
  | PTRACE_EVENT_EXEC
  | PTRACE_EVENT_VFORK_DONE
  | PTRACE_EVENT_EXIT
  | PTRACE_EVENT_SECCOMP
  | PTRACE_EVENT_STOP
deriving DecidableEq, Repr

/-- The kernel's numeric code of each `Event` member (values fixed by the
kernel ABI: `PTRACE_EVENT_FORK = 1` ... `PTRACE_EVENT_SECCOMP = 7`,
`PTRACE_EVENT_STOP = 128`). -/
def Event.value : Event → Int
  | .PTRACE_EVENT_FORK => 1
  | .PTRACE_EVENT_VFORK => 2
  | .PTRACE_EVENT_CLONE => 3
  | .PTRACE_EVENT_EXEC => 4
  | .PTRACE_EVENT_VFORK_DONE => 5
  | .PTRACE_EVENT_EXIT => 6
  | .PTRACE_EVENT_SECCOMP => 7
  | .PTRACE_EVENT_STOP => 128

/-- Exhaustive list of the closed `Event` enumeration. -/
def allEvents : List Event :=
  [.PTRACE_EVENT_FORK, .PTRACE_EVENT_VFORK, .PTRACE_EVENT_CLONE,
   .PTRACE_EVENT_EXEC, .PTRACE_EVENT_VFORK_DONE, .PTRACE_EVENT_EXIT,
   .PTRACE_EVENT_SECCOMP, .PTRACE_EVENT_STOP]

/-- The six-element syscall-argument array `[u64; 6]`. -/
structure Args6 where
  a0 : Nat
  a1 : Nat
  a2 : Nat
  a3 : Nat
  a4 : Nat
  a5 : Nat
deriving DecidableEq, Repr

/-- The `entry` view of the `ptrace_syscall_info` union: `nr : u64`,
`args : [u64; 6]`. -/
structure RawEntry where
  nr : Nat
  args : Args6
deriving DecidableEq, Repr

/-- The `exit` view of the `ptrace_syscall_info` union: `sval : i64`,
`is_error : u8`. -/
structure RawExit where
  sval : Int
  is_error : Nat
deriving DecidableEq, Repr

/-- The `seccomp` view of the `ptrace_syscall_info` union: `nr : u64`,
`args : [u64; 6]`, `ret_data : u32`. -/
structure RawSeccomp where
  nr : Nat
  args : Args6
  ret_data : Nat
deriving DecidableEq, Repr

/-- The anonymous union of libc's `ptrace_syscall_info`, modelled by its
three read views (the decoder reads only the view selected by the
discriminant, so byte aliasing between views never matters here). -/
structure RawSyscallInfoU where
  entry : RawEntry
  exit : RawExit
  seccomp : RawSeccomp
deriving DecidableEq, Repr

/-- libc's `ptrace_syscall_info` payload as filled in by the kernel:
discriminant `op : u8`, then `arch : u32`, `instruction_pointer : u64`,
`stack_pointer : u64`, then the union. -/
structure ptrace_syscall_info where
  op : Nat
  arch : Nat
  instruction_pointer : Nat
  stack_pointer : Nat
  u : RawSyscallInfoU
deriving DecidableEq, Repr

/-- Discriminant value `PTRACE_SYSCALL_INFO_NONE` (libc). -/
def PTRACE_SYSCALL_INFO_NONE : Nat := 0

/-- Discriminant value `PTRACE_SYSCALL_INFO_ENTRY` (libc). -/
def PTRACE_SYSCALL_INFO_ENTRY : Nat := 1

/-- Discriminant value `PTRACE_SYSCALL_INFO_EXIT` (libc). -/
def PTRACE_SYSCALL_INFO_EXIT : Nat := 2

/-- Discriminant value `PTRACE_SYSCALL_INFO_SECCOMP` (libc). -/
def PTRACE_SYSCALL_INFO_SECCOMP : Nat := 3

/-- Errno values are modelled by their raw code; `0` decodes to the
crate's `Errno::UnknownErrno`. -/
def Errno.unknownErrno : Nat := 0

/-- `Errno::ENOSYS` (function not implemented), code 38 on Linux. -/
def Errno.ENOSYS : Nat := 38

/-- Rust's `u64 as i64` cast (two's-complement reinterpretation). -/
def u64_as_i64 (n : Nat) : Int :=
  if n % 2 ^ 64 < 2 ^ 63 then ((n % 2 ^ 64 : Nat) : Int)
  else ((n % 2 ^ 64 : Nat) : Int) - 2 ^ 64

/-- The crate's `SyscallInfoOp`: which kind of syscall stop is reported. -/
inductive SyscallInfoOp where
  | none
  | entry (nr : Int) (args : Args6)
  | exit (ret_val : Int) (is_error : Nat)
  | seccomp (nr : Int) (args : Args6) (ret_data : Nat)
deriving DecidableEq, Repr

/-- The crate's `SyscallInfo`: decoded syscall-stop report. -/
structure SyscallInfo where
  op : SyscallInfoOp
  arch : Nat
  instruction_pointer : Nat
  stack_pointer : Nat
deriving DecidableEq, Repr

/-- `SyscallInfo::from_raw`: decode the kernel's tagged-union payload.
Mirrors the Rust `match raw.op` producing a `Result<SyscallInfoOp>`,
the `?` propagation, and the final `Ok(SyscallInfo { .. })`. -/
def SyscallInfo.from_raw (raw : ptrace_syscall_info) : Except Nat SyscallInfo :=
  let op : Except Nat SyscallInfoOp :=
    if raw.op = PTRACE_SYSCALL_INFO_NONE then
      Except.ok SyscallInfoOp.none
    else if raw.op = PTRACE_SYSCALL_INFO_ENTRY then
      Except.ok (SyscallInfoOp.entry (u64_as_i64 raw.u.entry.nr) raw.u.entry.args)
    else if raw.op = PTRACE_SYSCALL_INFO_EXIT then
      Except.ok (SyscallInfoOp.exit raw.u.exit.sval raw.u.exit.is_error)
    else if raw.op = PTRACE_SYSCALL_INFO_SECCOMP then
      Except.ok (SyscallInfoOp.seccomp (u64_as_i64 raw.u.seccomp.nr)
        raw.u.seccomp.args raw.u.seccomp.ret_data)
    else
      Except.error Errno.ENOSYS
  match op with
  | Except.error e => Except.error e
  | Except.ok op =>
      Except.ok { op := op, arch := raw.arch,
                  instruction_pointer := raw.instruction_pointer,
                  stack_pointer := raw.stack_pointer }

/-- The crate's `Options` bit-set, reduced to its raw bits (`options.bits()`
is all this file reads from it). -/
structure Options where
  bits : Int
deriving DecidableEq, Repr

/-- Modelled from the spec: the crate's `Signal` enum lives in
`sys/signal.rs`, which is not part of this file; per the spec a present
signal "encodes the signal number in the request's data slot" (`s as i32`),
so a signal is modelled by its number. -/
structure Signal where
  num : Int
deriving DecidableEq, Repr

/-- `ptr::null_mut()`. -/
def nullPtr : Int := 0

/-- `mem::size_of::<c_long>()` on the modelled 64-bit configuration. -/
def sizeof_c_long : Nat := 8

/-- `mem::size_of::<u64>()`. -/
def sizeof_u64 : Nat := 8

/-- `mem::size_of::<libc::siginfo_t>()` on `linux`/`gnu`/`x86_64`. -/
def sizeof_siginfo_t : Nat := 128

/-- `mem::size_of::<libc::user_regs_struct>()` on `x86_64` (27 `u64`s). -/
def sizeof_user_regs_struct : Nat := 216

/-- `mem::size_of::<libc::ptrace_syscall_info>()` on `linux`/`gnu`. -/
def sizeof_ptrace_syscall_info : Nat := 88

/-- libc's `user_regs_struct` (x86_64): the general-purpose register
dump, consumed verbatim from the kernel ABI; this layer never reads its
fields. -/
structure user_regs_struct where
  r15 : Nat
  r14 : Nat
  r13 : Nat
  r12 : Nat
  rbp : Nat
  rbx : Nat
  r11 : Nat
  r10 : Nat
  r9 : Nat
  r8 : Nat
  rax : Nat
  rcx : Nat
  rdx : Nat
  rsi : Nat
  rdi : Nat
  orig_rax : Nat
  rip : Nat
  cs : Nat
  eflags : Nat
  rsp : Nat
  ss : Nat
  fs_base : Nat
  gs_base : Nat
  ds : Nat
  es : Nat
  fs : Nat
  gs : Nat
deriving DecidableEq, Repr

/-- libc's `siginfo_t`, opaque to this layer (consumed verbatim from the
kernel ABI; only its 128-byte size enters any call). -/
structure siginfo_t where
  bytes : Nat
deriving DecidableEq, Repr

/-- The behaviour of the one underlying `libc::ptrace` invocation an
operation performs: the signed return word, and the errno value the
kernel stores (or `Option.none` when the call leaves errno untouched —
the case of a successful call, including a successful peek whose result
word happens to be `-1`). -/
structure KernelReply where
  ret : Int
  errnoSet : Option Nat
deriving DecidableEq, Repr

/-- Observable side effects of an operation: clearing the thread errno
state (`Errno::clear()`), and the underlying ptrace call with the request
code, pid, and the exact `addr` and `data` words marshalled into it. -/
inductive Effect where
  | clearErrno
  | call (req : Request) (pid : Int) (addr : Int) (data : Int)
deriving DecidableEq, Repr

/-- What an operation of this layer produces: the typed result (errno
code on failure), the effect trace, and the thread errno state after the
operation. -/
structure PtraceOutcome (α : Type) where
  result : Except Nat α
  trace : List Effect
  errnoAfter : Nat

/-- Apply the Rust `.map(f)` (typically `.map(drop)`) to the result. -/
def PtraceOutcome.mapResult (o : PtraceOutcome α) (f : α → β) : PtraceOutcome β :=
  { result := o.result.map f, trace := o.trace, errnoAfter := o.errnoAfter }

/-- `Errno::result(ret)`: `-1` means failure with the current errno value
decoded, anything else is success with the raw return word. -/
def Errno.result (ret : Int) (errno : Nat) : Except Nat Int :=
  if ret = -1 then Except.error errno else Except.ok ret

/-- The raw `libc::ptrace(request, pid, addr, data)` call under a given
kernel reply and incoming errno state: returns the kernel's return word,
the errno state after the call, and the recorded call effect. -/
def libcPtrace (req : Request) (pid addr data : Int) (k : KernelReply)
    (errno : Nat) : Int × Nat × List Effect :=
  (k.ret, k.errnoSet.getD errno, [Effect.call req pid addr data])

/-- `ptrace_peek`: clear errno, do the call, then treat `Ok(..)` and
`Err(UnknownErrno)` alike as success carrying the raw return word. -/
def ptrace_peek (req : Request) (pid addr data : Int) (k : KernelReply)
    (errno0 : Nat) : PtraceOutcome Int :=
  let r := libcPtrace req pid addr data k 0
  { result :=
      match Errno.result r.1 r.2.1 with
      | Except.ok _ => Except.ok r.1
      | Except.error e =>
          if e = Errno.unknownErrno then Except.ok r.1 else Except.error e
    trace := Effect.clearErrno :: r.2.2
    errnoAfter := r.2.1 }

/-- `ptrace_other`: do the call and map any non-error return to `0`. -/
def ptrace_other (req : Request) (pid addr data : Int) (k : KernelReply)
    (errno0 : Nat) : PtraceOutcome Int :=
  let r := libcPtrace req pid addr data k errno0
  { result := (Errno.result r.1 r.2.1).map (fun _ => 0)
    trace := r.2.2
    errnoAfter := r.2.1 }

/-- `ptrace_get_data::<T>`: pass `mem::size_of::<T>()` as the address
argument and the uninitialized buffer's address as the data argument; on
success return the value the kernel wrote into the buffer (`kWrites`). -/
def ptrace_get_data (T : Type) (size : Nat) (req : Request) (pid : Int)
    (bufAddr : Int) (k : KernelReply) (kWrites : T) (errno0 : Nat) :
    PtraceOutcome T :=
  let r := libcPtrace req pid (size : Int) bufAddr k errno0
  { result := (Errno.result r.1 r.2.1).map (fun _ => kWrites)
    trace := r.2.2
    errnoAfter := r.2.1 }

/-- `getregs`: `ptrace_get_data::<user_regs_struct>(PTRACE_GETREGS, pid)`. -/
def getregs (pid : Int) (bufAddr : Int) (k : KernelReply)
    (kWrites : user_regs_struct) (errno0 : Nat) : PtraceOutcome user_regs_struct :=
  ptrace_get_data user_regs_struct sizeof_user_regs_struct
    Request.PTRACE_GETREGS pid bufAddr k kWrites errno0

/-- `setregs`: raw call with null address and `&regs` as data. -/
def setregs (pid : Int) (regsAddr : Int) (k : KernelReply) (errno0 : Nat) :
    PtraceOutcome Unit :=
  let r := libcPtrace Request.PTRACE_SETREGS pid nullPtr regsAddr k errno0
  { result := (Errno.result r.1 r.2.1).map (fun _ => ())
    trace := r.2.2
    errnoAfter := r.2.1 }

/-- `setoptions`: raw call with null address and `options.bits()` as data. -/
def setoptions (pid : Int) (options : Options) (k : KernelReply)
    (errno0 : Nat) : PtraceOutcome Unit :=
  let r := libcPtrace Request.PTRACE_SETOPTIONS pid nullPtr options.bits k errno0
  { result := (Errno.result r.1 r.2.1).map (fun _ => ())
    trace := r.2.2
    errnoAfter := r.2.1 }

/-- `getevent`: `ptrace_get_data::<c_long>(PTRACE_GETEVENTMSG, pid)`. -/
def getevent (pid : Int) (bufAddr : Int) (k : KernelReply) (kWrites : Int)
    (errno0 : Nat) : PtraceOutcome Int :=
  ptrace_get_data Int sizeof_c_long Request.PTRACE_GETEVENTMSG pid bufAddr
    k kWrites errno0

/-- `getsiginfo`: `ptrace_get_data::<siginfo_t>(PTRACE_GETSIGINFO, pid)`. -/
def getsiginfo (pid : Int) (bufAddr : Int) (k : KernelReply)
    (kWrites : siginfo_t) (errno0 : Nat) : PtraceOutcome siginfo_t :=
  ptrace_get_data siginfo_t sizeof_siginfo_t Request.PTRACE_GETSIGINFO pid
    bufAddr k kWrites errno0

/-- `getsigmask`: `ptrace_get_data::<u64>(PTRACE_GETSIGMASK, pid)`. -/
def getsigmask (pid : Int) (bufAddr : Int) (k : KernelReply) (kWrites : Nat)
    (errno0 : Nat) : PtraceOutcome Nat :=
  ptrace_get_data Nat sizeof_u64 Request.PTRACE_GETSIGMASK pid bufAddr
    k kWrites errno0

/-- `getsyscallinfo`: `ptrace_other` with `size_of::<ptrace_syscall_info>()`
as address and the buffer's address as data; `?` propagates its error, and
on success the buffer is decoded by `SyscallInfo::from_raw`. -/
def getsyscallinfo (pid : Int) (bufAddr : Int) (k : KernelReply)
    (kWrites : ptrace_syscall_info) (errno0 : Nat) : PtraceOutcome SyscallInfo :=
  let o := ptrace_other Request.PTRACE_GET_SYSCALL_INFO pid
    ((sizeof_ptrace_syscall_info : Nat) : Int) bufAddr k errno0
  { result :=
      match o.result with
      | Except.error e => Except.error e
      | Except.ok _ => SyscallInfo.from_raw kWrites
    trace := o.trace
    errnoAfter := o.errnoAfter }

/-- `setsiginfo`: `Errno::clear()`, then the raw call with null address
and `sig as *const c_void` as data, then `Errno::result` matched into
`Ok(())` or the error. -/
def setsiginfo (pid : Int) (sigAddr : Int) (k : KernelReply) (errno0 : Nat) :
    PtraceOutcome Unit :=
  let r := libcPtrace Request.PTRACE_SETSIGINFO pid nullPtr sigAddr k 0
  { result :=
      match Errno.result r.1 r.2.1 with
      | Except.ok _ => Except.ok ()
      | Except.error e => Except.error e
    trace := Effect.clearErrno :: r.2.2
    errnoAfter := r.2.1 }

/-- `setsigmask`: `ptrace_other` with `size_of::<u64>()` as address and
`&mask` as data, result dropped. -/
def setsigmask (pid : Int) (mask : Nat) (maskAddr : Int) (k : KernelReply)
    (errno0 : Nat) : PtraceOutcome Unit :=
  (ptrace_other Request.PTRACE_SETSIGMASK pid ((sizeof_u64 : Nat) : Int)
    maskAddr k errno0).mapResult (fun _ => ())

/-- `traceme`: `ptrace_other(PTRACE_TRACEME, 0, null, null)`, dropped. -/
def traceme (k : KernelReply) (errno0 : Nat) : PtraceOutcome Unit :=
  (ptrace_other Request.PTRACE_TRACEME 0 nullPtr nullPtr k errno0).mapResult
    (fun _ => ())

/-- `syscall`: optional signal encoded into the data slot, null if absent. -/
def syscall (pid : Int) (sig : Option Signal) (k : KernelReply)
    (errno0 : Nat) : PtraceOutcome Unit :=
  let data : Int :=
    match sig with
    | Option.some s => s.num
    | Option.none => nullPtr
  (ptrace_other Request.PTRACE_SYSCALL pid nullPtr data k errno0).mapResult
    (fun _ => ())

/-- `sysemu`: optional signal encoded into the data slot, null if absent. -/
def sysemu (pid : Int) (sig : Option Signal) (k : KernelReply)
    (errno0 : Nat) : PtraceOutcome Unit :=
  let data : Int :=
    match sig with
    | Option.some s => s.num
    | Option.none => nullPtr
  (ptrace_other Request.PTRACE_SYSEMU pid nullPtr data k errno0).mapResult
    (fun _ => ())

/-- `attach`: `ptrace_other(PTRACE_ATTACH, pid, null, null)`, dropped. -/
def attach (pid : Int) (k : KernelReply) (errno0 : Nat) : PtraceOutcome Unit :=
  (ptrace_other Request.PTRACE_ATTACH pid nullPtr nullPtr k errno0).mapResult
    (fun _ => ())

/-- `seize`: `ptrace_other(PTRACE_SEIZE, pid, null, options.bits())`. -/
def seize (pid : Int) (options : Options) (k : KernelReply) (errno0 : Nat) :
    PtraceOutcome Unit :=
  (ptrace_other Request.PTRACE_SEIZE pid nullPtr options.bits k
    errno0).mapResult (fun _ => ())

/-- `detach`: optional signal encoded into the data slot, null if absent. -/
def detach (pid : Int) (sig : Option Signal) (k : KernelReply)
    (errno0 : Nat) : PtraceOutcome Unit :=
  let data : Int :=
    match sig with
    | Option.some s => s.num
    | Option.none => nullPtr
  (ptrace_other Request.PTRACE_DETACH pid nullPtr data k errno0).mapResult
    (fun _ => ())

/-- `cont`: optional signal encoded into the data slot, null if absent. -/
def cont (pid : Int) (sig : Option Signal) (k : KernelReply)
    (errno0 : Nat) : PtraceOutcome Unit :=
  let data : Int :=
    match sig with
    | Option.some s => s.num
    | Option.none => nullPtr
  (ptrace_other Request.PTRACE_CONT pid nullPtr data k errno0).mapResult
    (fun _ => ())

/-- `interrupt`: `ptrace_other(PTRACE_INTERRUPT, pid, null, null)`. -/
def interrupt (pid : Int) (k : KernelReply) (errno0 : Nat) : PtraceOutcome Unit :=
  (ptrace_other Request.PTRACE_INTERRUPT pid nullPtr nullPtr k
    errno0).mapResult (fun _ => ())

/-- `kill`: `ptrace_other(PTRACE_KILL, pid, null, null)`, dropped. -/
def kill (pid : Int) (k : KernelReply) (errno0 : Nat) : PtraceOutcome Unit :=
  (ptrace_other Request.PTRACE_KILL pid nullPtr nullPtr k errno0).mapResult
    (fun _ => ())

/-- `step`: optional signal encoded into the data slot, null if absent. -/
def step (pid : Int) (sig : Option Signal) (k : KernelReply)
    (errno0 : Nat) : PtraceOutcome Unit :=
  let data : Int :=
    match sig with
    | Option.some s => s.num
    | Option.none => nullPtr
  (ptrace_other Request.PTRACE_SINGLESTEP pid nullPtr data k errno0).mapResult
    (fun _ => ())

/-- `sysemu_step`: optional signal encoded into the data slot, null if
absent. -/
def sysemu_step (pid : Int) (sig : Option Signal) (k : KernelReply)
    (errno0 : Nat) : PtraceOutcome Unit :=
  let data : Int :=
    match sig with
    | Option.some s => s.num
    | Option.none => nullPtr
  (ptrace_other Request.PTRACE_SYSEMU_SINGLESTEP pid nullPtr data k
    errno0).mapResult (fun _ => ())

/-- `read`: `ptrace_peek(PTRACE_PEEKDATA, pid, addr, null)`. -/
def read (pid : Int) (addr : Int) (k : KernelReply) (errno0 : Nat) :
    PtraceOutcome Int :=
  ptrace_peek Request.PTRACE_PEEKDATA pid addr nullPtr k errno0

/-- `write`: `ptrace_other(PTRACE_POKEDATA, pid, addr, data)`, dropped. -/
def write (pid : Int) (addr : Int) (data : Int) (k : KernelReply)
    (errno0 : Nat) : PtraceOutcome Unit :=
  (ptrace_other Request.PTRACE_POKEDATA pid addr data k errno0).mapResult
    (fun _ => ())

/-- `read_user`: `ptrace_peek(PTRACE_PEEKUSER, pid, offset, null)`. -/
def read_user (pid : Int) (offset : Int) (k : KernelReply) (errno0 : Nat) :
    PtraceOutcome Int :=
  ptrace_peek Request.PTRACE_PEEKUSER pid offset nullPtr k errno0

/-- `write_user`: `ptrace_other(PTRACE_POKEUSER, pid, offset, data)`. -/
def write_user (pid : Int) (offset : Int) (data : Int) (k : KernelReply)
    (errno0 : Nat) : PtraceOutcome Unit :=
  (ptrace_other Request.PTRACE_POKEUSER pid offset data k errno0).mapResult
    (fun _ => ())

/-- A stopped tracee's word-addressed memory (kernel side; external to
this layer). -/
def Mem : Type := Int → Int

/-- Modelled from the spec: the kernel semantics of `PTRACE_POKEDATA` on a
stopped tracee — the kernel is not part of this repository; per the spec,
`write` stores the given word at the given address. This is the memory
after a successful poke. -/
def pokeMem (m : Mem) (addr data : Int) : Mem :=
  fun a => if a = addr then data else m a

/-- Modelled from the spec: the kernel's reply to a successful
`PTRACE_POKEDATA` — return word `0`, errno untouched. -/
def pokeReply : KernelReply :=
  { ret := 0, errnoSet := Option.none }

/-- Modelled from the spec: the kernel's reply to a successful
`PTRACE_PEEKDATA` at `addr` — the word stored there is the return value,
errno untouched. -/
def peekReply (m : Mem) (addr : Int) : KernelReply :=
  { ret := m addr, errnoSet := Option.none }

/-- A concrete six-argument array used by witnesses. -/
def sampleArgs : Args6 :=
  { a0 := 11, a1 := 22, a2 := 33, a3 := 44, a4 := 55, a5 := 66 }

/-- A concrete raw payload with the given discriminant, used by witnesses. -/
def sampleRaw (opv : Nat) : ptrace_syscall_info :=
  { op := opv, arch := 7, instruction_pointer := 1000, stack_pointer := 2000,
    u := { entry := { nr := 39, args := sampleArgs },
           exit := { sval := -2, is_error := 1 },
           seccomp := { nr := 40, args := sampleArgs, ret_data := 9 } } }

/-- Claim C1: the peek-style operations `read` and `read_user` clear the
thread error state before their single underlying ptrace call, succeed
with the raw kernel return word whenever the call does not set a
recognized error — including when the return word is `-1` and the decoded
error is the unknown-error sentinel — and otherwise fail with the decoded
error. -/
theorem C1_peek_clear_and_raw_word (pid addr offset : Int) (k : KernelReply)
    (errno0 : Nat) :
    (read pid addr k errno0).trace =
      [Effect.clearErrno, Effect.call Request.PTRACE_PEEKDATA pid addr nullPtr] ∧
    (read pid addr k errno0).result =
      (if k.ret = -1 ∧ k.errnoSet.getD 0 ≠ Errno.unknownErrno then
        Except.error (k.errnoSet.getD 0) else Except.ok k.ret) ∧
    (read_user pid offset k errno0).trace =
      [Effect.clearErrno, Effect.call Request.PTRACE_PEEKUSER pid offset nullPtr] ∧
    (read_user pid offset k errno0).result =
      (if k.ret = -1 ∧ k.errnoSet.getD 0 ≠ Errno.unknownErrno then
        Except.error (k.errnoSet.getD 0) else Except.ok k.ret) := by
  have key : ∀ (req : Request) (a : Int),
      (ptrace_peek req pid a nullPtr k errno0).result =
        (if k.ret = -1 ∧ k.errnoSet.getD 0 ≠ Errno.unknownErrno then
          Except.error (k.errnoSet.getD 0) else Except.ok k.ret) := by
    intro req a
    unfold ptrace_peek libcPtrace Errno.result
    by_cases h1 : k.ret = -1
    · by_cases h2 : k.errnoSet.getD 0 = Errno.unknownErrno <;> simp [h1, h2]
    · simp [h1]
  exact ⟨rfl, key _ _, rfl, key _ _⟩

/-- Claim C2: a raw syscall-info payload whose discriminant lies outside
the four known values makes `SyscallInfo.from_raw` — and hence a
`getsyscallinfo` whose underlying call reported no error — fail with the
not-implemented error `ENOSYS`, never a default variant. -/
theorem C2_unknown_discriminant_fails (raw : ptrace_syscall_info)
    (pid bufAddr : Int) (k : KernelReply) (errno0 : Nat)
    (hop : ¬(raw.op = PTRACE_SYSCALL_INFO_NONE ∨
      raw.op = PTRACE_SYSCALL_INFO_ENTRY ∨
      raw.op = PTRACE_SYSCALL_INFO_EXIT ∨
      raw.op = PTRACE_SYSCALL_INFO_SECCOMP))
    (hret : k.ret ≠ -1) :
    SyscallInfo.from_raw raw = Except.error Errno.ENOSYS ∧
    (getsyscallinfo pid bufAddr k raw errno0).result =
      Except.error Errno.ENOSYS := by
  push_neg at hop
  obtain ⟨h1, h2, h3, h4⟩ := hop
  have hfr : SyscallInfo.from_raw raw = Except.error Errno.ENOSYS := by
    unfold SyscallInfo.from_raw
    simp [h1, h2, h3, h4]
  refine ⟨hfr, ?_⟩
  unfold getsyscallinfo ptrace_other libcPtrace Errno.result
  simp [hret, hfr, Except.map]

/-- Witness for C2 at a concrete payload with discriminant `4` and a
successful underlying call. -/
theorem C2_witness :
    ¬((sampleRaw 4).op = PTRACE_SYSCALL_INFO_NONE ∨
      (sampleRaw 4).op = PTRACE_SYSCALL_INFO_ENTRY ∨
      (sampleRaw 4).op = PTRACE_SYSCALL_INFO_EXIT ∨
      (sampleRaw 4).op = PTRACE_SYSCALL_INFO_SECCOMP) ∧
    (KernelReply.mk 0 Option.none).ret ≠ -1 ∧
    (SyscallInfo.from_raw (sampleRaw 4) = Except.error Errno.ENOSYS ∧
     (getsyscallinfo 1 100 (KernelReply.mk 0 Option.none) (sampleRaw 4) 0).result =
       Except.error Errno.ENOSYS) :=
  ⟨by decide, by decide,
   C2_unknown_discriminant_fails (sampleRaw 4) 1 100 (KernelReply.mk 0 Option.none) 0
     (by decide) (by decide)⟩

/-- Claim C3: a raw syscall-info payload with a recognized discriminant
decodes to the variant that discriminant selects, with the fields the
spec lists (`None`; `Entry` with number and six-argument array; `Exit`
with return value and error flag; `Seccomp` with number, six-argument
array and seccomp return data), the header fields coming along. -/
theorem C3_recognized_variants (raw : ptrace_syscall_info) :
    (raw.op = PTRACE_SYSCALL_INFO_NONE → SyscallInfo.from_raw raw =
      Except.ok ⟨SyscallInfoOp.none, raw.arch, raw.instruction_pointer,
        raw.stack_pointer⟩) ∧
    (raw.op = PTRACE_SYSCALL_INFO_ENTRY → SyscallInfo.from_raw raw =
      Except.ok ⟨SyscallInfoOp.entry (u64_as_i64 raw.u.entry.nr) raw.u.entry.args,
        raw.arch, raw.instruction_pointer, raw.stack_pointer⟩) ∧
    (raw.op = PTRACE_SYSCALL_INFO_EXIT → SyscallInfo.from_raw raw =
      Except.ok ⟨SyscallInfoOp.exit raw.u.exit.sval raw.u.exit.is_error,
        raw.arch, raw.instruction_pointer, raw.stack_pointer⟩) ∧
    (raw.op = PTRACE_SYSCALL_INFO_SECCOMP → SyscallInfo.from_raw raw =
      Except.ok ⟨SyscallInfoOp.seccomp (u64_as_i64 raw.u.seccomp.nr)
        raw.u.seccomp.args raw.u.seccomp.ret_data,
        raw.arch, raw.instruction_pointer, raw.stack_pointer⟩) := by
  refine ⟨fun h => ?_, fun h => ?_, fun h => ?_, fun h => ?_⟩ <;>
  · unfold SyscallInfo.from_raw
    simp [h, PTRACE_SYSCALL_INFO_NONE, PTRACE_SYSCALL_INFO_ENTRY,
      PTRACE_SYSCALL_INFO_EXIT, PTRACE_SYSCALL_INFO_SECCOMP]

/-- Witness for C3 at concrete payloads carrying each of the four
recognized discriminants. -/
theorem C3_witness :
    ((sampleRaw 0).op = PTRACE_SYSCALL_INFO_NONE ∧
      SyscallInfo.from_raw (sampleRaw 0) =
        Except.ok ⟨SyscallInfoOp.none, (sampleRaw 0).arch,
          (sampleRaw 0).instruction_pointer, (sampleRaw 0).stack_pointer⟩) ∧
    ((sampleRaw 1).op = PTRACE_SYSCALL_INFO_ENTRY ∧
      SyscallInfo.from_raw (sampleRaw 1) =
        Except.ok ⟨SyscallInfoOp.entry (u64_as_i64 (sampleRaw 1).u.entry.nr)
          (sampleRaw 1).u.entry.args, (sampleRaw 1).arch,
          (sampleRaw 1).instruction_pointer, (sampleRaw 1).stack_pointer⟩) ∧
    ((sampleRaw 2).op = PTRACE_SYSCALL_INFO_EXIT ∧
      SyscallInfo.from_raw (sampleRaw 2) =
        Except.ok ⟨SyscallInfoOp.exit (sampleRaw 2).u.exit.sval
          (sampleRaw 2).u.exit.is_error, (sampleRaw 2).arch,
          (sampleRaw 2).instruction_pointer, (sampleRaw 2).stack_pointer⟩) ∧
    ((sampleRaw 3).op = PTRACE_SYSCALL_INFO_SECCOMP ∧
      SyscallInfo.from_raw (sampleRaw 3) =
        Except.ok ⟨SyscallInfoOp.seccomp (u64_as_i64 (sampleRaw 3).u.seccomp.nr)
          (sampleRaw 3).u.seccomp.args (sampleRaw 3).u.seccomp.ret_data,
          (sampleRaw 3).arch, (sampleRaw 3).instruction_pointer,
          (sampleRaw 3).stack_pointer⟩) :=
  ⟨⟨by decide, (C3_recognized_variants (sampleRaw 0)).1 (by decide)⟩,
   ⟨by decide, (C3_recognized_variants (sampleRaw 1)).2.1 (by decide)⟩,
   ⟨by decide, (C3_recognized_variants (sampleRaw 2)).2.2.1 (by decide)⟩,
   ⟨by decide, (C3_recognized_variants (sampleRaw 3)).2.2.2 (by decide)⟩⟩

/-- Claim C4: every signal-bearing operation (`cont`, `step`, `detach`,
`syscall`, `sysemu`, `sysemu_step`) passes a null data argument to the
underlying ptrace call when the optional signal is absent, and exactly
the signal's number when it is present. -/
theorem C4_signal_encoding (pid : Int) (sig : Option Signal) (k : KernelReply)
    (errno0 : Nat) :
    (cont pid sig k errno0).trace =
      [Effect.call Request.PTRACE_CONT pid nullPtr
        (match sig with | Option.some s => s.num | Option.none => nullPtr)] ∧
    (step pid sig k errno0).trace =
      [Effect.call Request.PTRACE_SINGLESTEP pid nullPtr
        (match sig with | Option.some s => s.num | Option.none => nullPtr)] ∧
    (detach pid sig k errno0).trace =
      [Effect.call Request.PTRACE_DETACH pid nullPtr
        (match sig with | Option.some s => s.num | Option.none => nullPtr)] ∧
    (syscall pid sig k errno0).trace =
      [Effect.call Request.PTRACE_SYSCALL pid nullPtr
        (match sig with | Option.some s => s.num | Option.none => nullPtr)] ∧
    (sysemu pid sig k errno0).trace =
      [Effect.call Request.PTRACE_SYSEMU pid nullPtr
        (match sig with | Option.some s => s.num | Option.none => nullPtr)] ∧
    (sysemu_step pid sig k errno0).trace =
      [Effect.call Request.PTRACE_SYSEMU_SINGLESTEP pid nullPtr
        (match sig with | Option.some s => s.num | Option.none => nullPtr)] := by
  cases sig <;>
    simp [cont, step, detach, syscall, sysemu, sysemu_step, ptrace_other,
      libcPtrace, PtraceOutcome.mapResult]

/-- Claim C5: every poke-style or control-style operation succeeds with
unit exactly when the underlying call does not report an error, whatever
the (discarded) non-error return word was, and otherwise fails with the
decoded error (the thread errno state after the call). -/
theorem C5_control_success_or_decoded_error (k : KernelReply) (errno0 : Nat) :
    (∀ pid addr data, (write pid addr data k errno0).result =
      (if k.ret = -1 then
        Except.error ((write pid addr data k errno0).errnoAfter)
      else Except.ok ())) ∧
    (∀ pid sig, (cont pid sig k errno0).result =
      (if k.ret = -1 then Except.error ((cont pid sig k errno0).errnoAfter)
      else Except.ok ())) ∧
    (∀ pid sig, (step pid sig k errno0).result =
      (if k.ret = -1 then Except.error ((step pid sig k errno0).errnoAfter)
      else Except.ok ())) ∧
    (∀ pid, (attach pid k errno0).result =
      (if k.ret = -1 then Except.error ((attach pid k errno0).errnoAfter)
      else Except.ok ())) ∧
    (∀ pid sig, (detach pid sig k errno0).result =
      (if k.ret = -1 then Except.error ((detach pid sig k errno0).errnoAfter)
      else Except.ok ())) ∧
    (∀ pid, (kill pid k errno0).result =
      (if k.ret = -1 then Except.error ((kill pid k errno0).errnoAfter)
      else Except.ok ())) ∧
    (∀ pid, (interrupt pid k errno0).result =
      (if k.ret = -1 then Except.error ((interrupt pid k errno0).errnoAfter)
      else Except.ok ())) ∧
    (∀ pid opts, (seize pid opts k errno0).result =
      (if k.ret = -1 then Except.error ((seize pid opts k errno0).errnoAfter)
      else Except.ok ())) ∧
    (∀ pid opts, (setoptions pid opts k errno0).result =
      (if k.ret = -1 then Except.error ((setoptions pid opts k errno0).errnoAfter)
      else Except.ok ())) ∧
    (∀ pid sigAddr, (setsiginfo pid sigAddr k errno0).result =
      (if k.ret = -1 then Except.error ((setsiginfo pid sigAddr k errno0).errnoAfter)
      else Except.ok ())) ∧
    (∀ pid mask maskAddr, (setsigmask pid mask maskAddr k errno0).result =
      (if k.ret = -1 then
        Except.error ((setsigmask pid mask maskAddr k errno0).errnoAfter)
      else Except.ok ())) := by
  refine ⟨?_, ?_, ?_, ?_, ?_, ?_, ?_, ?_, ?_, ?_, ?_⟩ <;> intros <;>
    by_cases h : k.ret = -1 <;>
    simp [write, cont, step, attach, detach, kill, interrupt, seize,
      setoptions, setsiginfo, setsigmask, setregs, ptrace_other, libcPtrace,
      Errno.result, PtraceOutcome.mapResult, Except.map, h]

/-- Claim C6 as stated fails on the code: `setsiginfo` is not a
peek-style operation, yet at these concrete arguments it clears the
thread error state before its underlying ptrace call. -/
theorem C6_counterexample :
    Effect.clearErrno ∈ (setsiginfo 1 5 (KernelReply.mk 0 Option.none) 7).trace := by
  decide

/-- Claim C6 amended: the clear-before-call discipline is applied in the
peek-style calls (`read`, `read_user`, via `ptrace_peek`) and also in
`setsiginfo`; every other operation performs its underlying ptrace call
without clearing the error state first. -/
theorem C6_amended_clear_discipline :
    (∀ pid addr k errno0,
      Effect.clearErrno ∈ (read pid addr k errno0 : PtraceOutcome Int).trace) ∧
    (∀ pid offset k errno0,
      Effect.clearErrno ∈ (read_user pid offset k errno0 : PtraceOutcome Int).trace) ∧
    (∀ pid sigAddr k errno0,
      Effect.clearErrno ∈ (setsiginfo pid sigAddr k errno0).trace) ∧
    (∀ pid addr data k errno0,
      Effect.clearErrno ∉ (write pid addr data k errno0).trace) ∧
    (∀ pid offset data k errno0,
      Effect.clearErrno ∉ (write_user pid offset data k errno0).trace) ∧
    (∀ pid sig k errno0, Effect.clearErrno ∉ (cont pid sig k errno0).trace) ∧
    (∀ pid sig k errno0, Effect.clearErrno ∉ (step pid sig k errno0).trace) ∧
    (∀ pid sig k errno0, Effect.clearErrno ∉ (detach pid sig k errno0).trace) ∧
    (∀ pid sig k errno0, Effect.clearErrno ∉ (syscall pid sig k errno0).trace) ∧
    (∀ pid sig k errno0, Effect.clearErrno ∉ (sysemu pid sig k errno0).trace) ∧
    (∀ pid sig k errno0,
      Effect.clearErrno ∉ (sysemu_step pid sig k errno0).trace) ∧
    (∀ pid k errno0, Effect.clearErrno ∉ (attach pid k errno0).trace) ∧
    (∀ pid opts k errno0, Effect.clearErrno ∉ (seize pid opts k errno0).trace) ∧
    (∀ pid k errno0, Effect.clearErrno ∉ (interrupt pid k errno0).trace) ∧
    (∀ pid k errno0, Effect.clearErrno ∉ (kill pid k errno0).trace) ∧
    (∀ k errno0, Effect.clearErrno ∉ (traceme k errno0).trace) ∧
    (∀ pid opts k errno0,
      Effect.clearErrno ∉ (setoptions pid opts k errno0).trace) ∧
    (∀ pid regsAddr k errno0,
      Effect.clearErrno ∉ (setregs pid regsAddr k errno0).trace) ∧
    (∀ pid bufAddr k regs errno0,
      Effect.clearErrno ∉ (getregs pid bufAddr k regs errno0).trace) ∧
    (∀ pid bufAddr k ev errno0,
      Effect.clearErrno ∉ (getevent pid bufAddr k ev errno0).trace) ∧
    (∀ pid bufAddr k si errno0,
      Effect.clearErrno ∉ (getsiginfo pid bufAddr k si errno0).trace) ∧
    (∀ pid bufAddr k m errno0,
      Effect.clearErrno ∉ (getsigmask pid bufAddr k m errno0).trace) ∧
    (∀ pid bufAddr k raw errno0,
      Effect.clearErrno ∉ (getsyscallinfo pid bufAddr k raw errno0).trace) ∧
    (∀ pid mask maskAddr k errno0,
      Effect.clearErrno ∉ (setsigmask pid mask maskAddr k errno0).trace) := by
  refine ⟨?_, ?_, ?_, ?_, ?_, ?_, ?_, ?_, ?_, ?_, ?_, ?_, ?_, ?_, ?_, ?_,
    ?_, ?_, ?_, ?_, ?_, ?_, ?_, ?_⟩ <;> intros <;>
    simp [read, read_user, setsiginfo, write, write_user, cont, step, detach,
      syscall, sysemu, sysemu_step, attach, seize, interrupt, kill, traceme,
      setoptions, setregs, getregs, getevent, getsiginfo, getsigmask,
      getsyscallinfo, setsigmask, ptrace_peek, ptrace_other, ptrace_get_data,
      libcPtrace, PtraceOutcome.mapResult]

end ptrace

namespace ptrace

/-- Claim C7 as stated fails on the code: at these concrete inputs the
underlying call succeeds and `getevent` returns the raw event-message
word `1000`, which is not the value of any member of the closed `Event`
enumeration. -/
theorem C7_counterexample :
    (getevent 1 100 (KernelReply.mk 0 Option.none) 1000 0).result =
      Except.ok 1000 ∧
    (1000 : Int) ∉ allEvents.map Event.value := by
  exact ⟨rfl, by decide⟩

/-- Claim C7 amended: the stop-reason codes form the closed eight-member
`Event` enumeration (fork/vfork/clone/exec/vfork-done/exit/seccomp/
group-stop, with the kernel's fixed codes), but `getevent` returns the
raw event-message word the kernel wrote, unconstrained to that
enumeration's member set. -/
theorem C7_amended_event_closed_getevent_raw (pid bufAddr : Int)
    (k : KernelReply) (msg : Int) (errno0 : Nat) :
    (∀ e : Event, e ∈ allEvents) ∧
    allEvents.map Event.value = [1, 2, 3, 4, 5, 6, 7, 128] ∧
    (getevent pid bufAddr k msg errno0).result =
      (if k.ret = -1 then Except.error (k.errnoSet.getD errno0)
      else Except.ok msg) := by
  refine ⟨fun e => by cases e <;> decide, by decide, ?_⟩
  by_cases h : k.ret = -1 <;>
    simp [getevent, ptrace_get_data, libcPtrace, Errno.result, Except.map, h]

/-- Claim C8: under the spec's kernel semantics of `PTRACE_POKEDATA` and
`PTRACE_PEEKDATA` on a stopped tracee, a `write` of a word at an address
succeeds, and a subsequent `read` at the same address succeeds and
returns the written word (even when that word is `-1`). -/
theorem C8_write_then_read_roundtrip (m : Mem) (pid addr data : Int)
    (errno0 : Nat) :
    (write pid addr data pokeReply errno0).result = Except.ok () ∧
    (read pid addr (peekReply (pokeMem m addr data) addr)
        (write pid addr data pokeReply errno0).errnoAfter).result =
      Except.ok data := by
  constructor
  · simp [write, ptrace_other, libcPtrace, Errno.result, pokeReply,
      PtraceOutcome.mapResult, Except.map]
  · by_cases hd : data = -1 <;>
      simp [read, ptrace_peek, libcPtrace, Errno.result, peekReply, pokeMem,
        pokeReply, Errno.unknownErrno, hd]

/-- Claim C9: whenever `SyscallInfo.from_raw` succeeds, the decoded value
carries the raw payload's `arch`, `instruction_pointer` and
`stack_pointer` fields verbatim, whichever variant was selected. -/
theorem C9_header_fields_copied (raw : ptrace_syscall_info)
    (info : SyscallInfo) (h : SyscallInfo.from_raw raw = Except.ok info) :
    info.arch = raw.arch ∧
    info.instruction_pointer = raw.instruction_pointer ∧
    info.stack_pointer = raw.stack_pointer := by
  unfold SyscallInfo.from_raw at h
  split_ifs at h <;> simp at h <;> subst h <;> exact ⟨rfl, rfl, rfl⟩

/-- Witness for C9 at a concrete exit-discriminant payload. -/
theorem C9_witness :
    SyscallInfo.from_raw (sampleRaw 2) =
      Except.ok ⟨SyscallInfoOp.exit (-2) 1, 7, 1000, 2000⟩ ∧
    ((⟨SyscallInfoOp.exit (-2) 1, 7, 1000, 2000⟩ : SyscallInfo).arch =
        (sampleRaw 2).arch ∧
      (⟨SyscallInfoOp.exit (-2) 1, 7, 1000, 2000⟩ : SyscallInfo).instruction_pointer =
        (sampleRaw 2).instruction_pointer ∧
      (⟨SyscallInfoOp.exit (-2) 1, 7, 1000, 2000⟩ : SyscallInfo).stack_pointer =
        (sampleRaw 2).stack_pointer) :=
  ⟨rfl,
   C9_header_fields_copied (sampleRaw 2) ⟨SyscallInfoOp.exit (-2) 1, 7, 1000, 2000⟩
     rfl⟩

/-- Claim C10: the out-parameter operations going through
`ptrace_get_data` (`getregs`, `getevent`, `getsiginfo`, `getsigmask`),
as well as `getsyscallinfo` and `setsigmask`, pass the byte size of the
transferred type as the address argument of the underlying ptrace call
and the buffer's (or value's) address as the data argument. -/
theorem C10_size_and_buffer_marshalling (pid bufAddr maskAddr : Int)
    (k : KernelReply) (errno0 : Nat) (regs : user_regs_struct)
    (si : siginfo_t) (msk sigmask : Nat) (ev : Int)
    (raw : ptrace_syscall_info) :
    (getregs pid bufAddr k regs errno0).trace =
      [Effect.call Request.PTRACE_GETREGS pid
        ((sizeof_user_regs_struct : Nat) : Int) bufAddr] ∧
    (getevent pid bufAddr k ev errno0).trace =
      [Effect.call Request.PTRACE_GETEVENTMSG pid
        ((sizeof_c_long : Nat) : Int) bufAddr] ∧
    (getsiginfo pid bufAddr k si errno0).trace =
      [Effect.call Request.PTRACE_GETSIGINFO pid
        ((sizeof_siginfo_t : Nat) : Int) bufAddr] ∧
    (getsigmask pid bufAddr k sigmask errno0).trace =
      [Effect.call Request.PTRACE_GETSIGMASK pid
        ((sizeof_u64 : Nat) : Int) bufAddr] ∧
    (getsyscallinfo pid bufAddr k raw errno0).trace =
      [Effect.call Request.PTRACE_GET_SYSCALL_INFO pid
        ((sizeof_ptrace_syscall_info : Nat) : Int) bufAddr] ∧
    (setsigmask pid msk maskAddr k errno0).trace =
      [Effect.call Request.PTRACE_SETSIGMASK pid
        ((sizeof_u64 : Nat) : Int) maskAddr] :=
  ⟨rfl, rfl, rfl, rfl, rfl, rfl⟩

end ptrace
